import Mathlib

/-!
Verification development for the IDS backend (src/backend/main.py).

The mutable module-level state of the backend (monitoring flag and
timestamps, traffic source, statistics counters, last prediction and the
bounded deque of recent predictions) is embedded as one record,
`ServerState`.  Python dict updates become functional record updates.
Wall-clock readings and the random draws of `_fake_ip` and
`random.choice` are passed in explicitly through an `EventEnv` argument,
so every function is deterministic in its inputs.  Machine floats of the
source carry probabilities in [0, 1] with four-digit rounding; they are
embedded as rationals.  Python exceptions become `Except` results.
-/

/-- One entry of the nondeterministic environment consumed when an event is
built: the formatted clock reading and the random draws of `_fake_ip`
(the final octets) and of `random.choice` over the four attack names. -/
structure EventEnv where
  time : String
  srcOctet : Nat
  dstOctet : Nat
  attackPick : Fin 4
  deriving DecidableEq

/-- The `last_prediction` summary stored in `stats_state`. -/
structure LastPred where
  label : String
  probability : ℚ
  deriving DecidableEq

/-- One enriched prediction event, the dict built by
`_push_prediction_to_dashboard` and stored in `recent_preds`. -/
structure PredEvent where
  time : String
  label : String
  probability : ℚ
  src : String
  dst : String
  type : String
  risk : String
  deriving DecidableEq

/-- The module-level mutable state of `main.py`: `monitoring_state`
(running/started_at/stopped_at), `traffic_source`, `stats_state`
(total/benign/attack/last_prediction) and the deque `recent_preds`.
The deque is a list ordered newest-first, as `appendleft` produces. -/
structure ServerState where
  running : Bool
  started_at : Option Nat
  stopped_at : Option Nat
  source : String
  total : Nat
  benign : Nat
  attack : Nat
  last_prediction : Option LastPred
  recent : List PredEvent
  deriving DecidableEq

/-- `round(x, 4)` of the source, on rationals: the integer nearest to
`q * 10000` (halves up), over 10000.  Phrased on numerator and
denominator with integer division so the kernel can evaluate it; the
lemma `round4_eq` below states the usual form. -/
def round4 (q : ℚ) : ℚ :=
  Rat.divInt ((2 * (q.num * 10000) + (q.den : ℤ)) / (2 * (q.den : ℤ))) 10000

/-- `_risk_from_label` of main.py; `0.80` is the rational 4/5. -/
def _risk_from_label (label : String) (prob : ℚ) : String :=
  if label ≠ "BENIGN" then
    (if Rat.divInt 4 5 ≤ prob then "High" else "Medium")
  else "Low"

/-- `_fake_ip` of main.py, with the random octet passed in. -/
def _fake_ip (octet : Nat) : String := "192.168.1." ++ toString octet

/-- `.upper()` of the source, modelled on the character list so the
kernel can evaluate it. -/
def strUpper (s : String) : String := String.mk (s.data.map Char.toUpper)

/-- `_attack_type_from_label` of main.py, with the `random.choice` draw
passed in as an index into the four attack names. -/
def _attack_type_from_label (pick : Fin 4) (label : String) : String :=
  if label = "BENIGN" then "Normal"
  else if strUpper label = "ATTACK" then
    ["DDoS", "Port Scan", "Brute Force", "Botnet"].getD pick.val "Botnet"
  else label

/-- The `item` dict built at the top of `_push_prediction_to_dashboard`. -/
def mkItem (env : EventEnv) (label : String) (prob : ℚ) : PredEvent :=
  { time := env.time
    label := label
    probability := round4 prob
    src := _fake_ip env.srcOctet
    dst := _fake_ip env.dstOctet
    type := _attack_type_from_label env.attackPick label
    risk := _risk_from_label label prob }

/-- `_push_prediction_to_dashboard` of main.py: under the stats lock it
increments `total`, increments `benign` or `attack` by the label,
replaces `last_prediction` and appendlefts the item into the
maxlen-200 deque (which drops the oldest entry when full). -/
def _push_prediction_to_dashboard (env : EventEnv) (label : String) (prob : ℚ)
    (st : ServerState) : ServerState :=
  let item := mkItem env label prob
  { st with
    total := st.total + 1
    benign := if label = "BENIGN" then st.benign + 1 else st.benign
    attack := if label = "BENIGN" then st.attack else st.attack + 1
    last_prediction := some { label := label, probability := round4 prob }
    recent := (item :: st.recent).take 200 }

/-- The normalisation `(src or "").strip().lower()` applied by
`_set_source` before validating: drop leading and trailing whitespace,
lowercase the rest.  Modelled on the character list so the kernel can
evaluate it. -/
def normSource (src : String) : String :=
  String.mk
    (((src.data.dropWhile Char.isWhitespace).reverse.dropWhile
        Char.isWhitespace).reverse.map Char.toLower)

/-- `_get_source` of main.py. -/
def _get_source (st : ServerState) : String := st.source

/-- `_set_source` of main.py: normalise, validate against the two legal
values raising `ValueError` otherwise (before any write), then store and
return the new value. -/
def _set_source (src : String) (st : ServerState) : Except String ServerState :=
  let s := normSource src
  if s = "generator" ∨ s = "dataset" then Except.ok { st with source := s }
  else Except.error "source must be \x27generator\x27 or \x27dataset\x27"

/-- An HTTP error raised at the boundary (`HTTPException`). -/
structure HttpErr where
  status : Nat
  detail : String
  deriving DecidableEq

/-- The `/source/set` endpoint `source_set`: on success returns the new
source, on `ValueError` re-raises as HTTP 400 leaving the state as it
was. -/
def source_set (source : String) (st : ServerState) :
    Except HttpErr String × ServerState :=
  match _set_source source st with
  | Except.ok st2 => (Except.ok st2.source, st2)
  | Except.error e => (Except.error { status := 400, detail := e }, st)

/-- `/monitor/start`: sets the flag, stamps `started_at`, clears
`stopped_at`. The clock reading is passed in. -/
def start_monitoring (now : Nat) (st : ServerState) : ServerState :=
  { st with running := true, started_at := some now, stopped_at := none }

/-- `/monitor/stop`: clears the flag and stamps `stopped_at`.  The source
leaves `started_at` untouched. -/
def stop_monitoring (now : Nat) (st : ServerState) : ServerState :=
  { st with running := false, stopped_at := some now }

/-- `/predict`: requires monitoring (409), requires source `generator`
(423), then classifies and pushes to the dashboard, returning
`recent_preds[0]`.  The oracle outcome of `predict_sample(payload)` is
passed in; an oracle exception would escape as a server error. -/
def predict (env : EventEnv) (orc : Except String (String × ℚ))
    (st : ServerState) : Except HttpErr PredEvent × ServerState :=
  if st.running = false then
    (Except.error ⟨409, "Monitoring is stopped. Start monitoring first."⟩, st)
  else if st.source ≠ "generator" then
    (Except.error ⟨423, "Traffic source is \x27" ++ st.source ++
        "\x27. This endpoint requires source=\x27generator\x27."⟩, st)
  else
    match orc with
    | Except.error e => (Except.error ⟨500, e⟩, st)
    | Except.ok (label, prob) =>
      let st2 := _push_prediction_to_dashboard env label prob st
      (Except.ok (st2.recent.headD (mkItem env label prob)), st2)

/-- `/recent`: empty items while monitoring is off, otherwise the first
`limit` entries of the deque. -/
def recent (limit : Nat) (st : ServerState) : List PredEvent :=
  if st.running = false then [] else st.recent.take limit

/-- `/recent/alerts`: empty items while monitoring is off, otherwise the
non-benign entries of the whole deque, truncated to `limit` after the
filter. -/
def recent_alerts (limit : Nat) (st : ServerState) : List PredEvent :=
  if st.running = false then []
  else ((st.recent.filter (fun x => x.label != "BENIGN")).take limit)

/-- A job record of `test_jobs` (timestamps omitted; no claim concerns
them). -/
structure JobRec where
  status : String
  filename : String
  processed : Nat
  total : Nat
  benign : Nat
  attack : Nat
  message : Option String
  deriving DecidableEq

/-- `_job_create` of main.py. -/
def _job_create (total_rows : Nat) (filename : String) : JobRec :=
  { status := "queued"
    filename := filename
    processed := 0
    total := total_rows
    benign := 0
    attack := 0
    message := none }

/-- How the replay worker loop exits: fuel exhausted (all rows done), the
monitoring flag observed false, or an exception from `predict_sample`. -/
inductive LoopExit where
  | completed (processed benign attack : Nat)
  | monStopped
  | oracleFail (msg : String)
  deriving DecidableEq

/-- The `for i in range(total)` loop of `_run_test_job`.  `mon i` is the
value of `monitoring_state["running"]` observed at the top of iteration
`i` (the flag is mutated concurrently by `/monitor/stop`), `envs i` the
environment consumed when row `i` is enriched.  The trace accumulates
every job-record state published by `_job_update`, oldest first.  The
`sleep_ms` delay has no observable effect and is dropped. -/
def runLoop {α : Type} [Inhabited α] (oracle : α → Except String (String × ℚ))
    (mon : Nat → Bool) (envs : Nat → EventEnv) (rows : List α) (total : Nat) :
    Nat → Nat → Nat → Nat → Nat → ServerState → JobRec → List JobRec →
      LoopExit × ServerState × JobRec × List JobRec
  | 0, _i, p, b, a, st, job, tr => (LoopExit.completed p b a, st, job, tr)
  | k + 1, i, p, b, a, st, job, tr =>
    if mon i = false then
      let j2 := { job with
                  status := "failed"
                  message := some "Monitoring stopped during dataset test." }
      (LoopExit.monStopped, st, j2, tr ++ [j2])
    else
      match oracle (rows.getD i default) with
      | Except.error e => (LoopExit.oracleFail e, st, job, tr)
      | Except.ok (label, prob) =>
        let b2 := if label = "BENIGN" then b + 1 else b
        let a2 := if label = "BENIGN" then a else a + 1
        let st2 := _push_prediction_to_dashboard (envs i) label prob st
        let p2 := p + 1
        if p2 % 25 = 0 then
          let j2 := { job with
                      processed := p2
                      benign := b2
                      attack := a2
                      message := some ("Processed " ++ toString p2 ++ "/" ++
                        toString total) }
          runLoop oracle mon envs rows total k (i + 1) p2 b2 a2 st2 j2
            (tr ++ [j2])
        else
          runLoop oracle mon envs rows total k (i + 1) p2 b2 a2 st2 job tr

/-- The `finally` block of `_run_test_job`: restore the previous source;
if that raises, force `generator`. -/
def restoreSource (prev : String) (st : ServerState) : ServerState :=
  match _set_source prev st with
  | Except.ok s => s
  | Except.error _ =>
    match _set_source "generator" st with
    | Except.ok s => s
    | Except.error _ => st

/-- The tail of `_run_test_job` after the loop: publish the terminal job
update (done on completion, failed on a caught exception; the
monitoring-stopped failure was already published inside the loop and the
worker just returns), then run the `finally` restore. -/
def finishJob (prev_source : String)
    (r : LoopExit × ServerState × JobRec × List JobRec) :
    ServerState × JobRec × List JobRec :=
  match r with
  | (LoopExit.completed p b a, st2, job2, tr2) =>
    let jd := { job2 with
                status := "done"
                processed := p
                benign := b
                attack := a
                message := some "Dataset test done." }
    (restoreSource prev_source st2, jd, tr2 ++ [jd])
  | (LoopExit.monStopped, st2, job2, tr2) =>
    (restoreSource prev_source st2, job2, tr2)
  | (LoopExit.oracleFail e, st2, job2, tr2) =>
    let jf := { job2 with status := "failed", message := some e }
    (restoreSource prev_source st2, jf, tr2 ++ [jf])

/-- The value of a successful `_set_source`, with the unreachable error
branch falling back to the given state ("dataset" and "generator" are
always legal). -/
def okOr (d : ServerState) : Except String ServerState → ServerState
  | Except.ok s => s
  | Except.error _ => d

/-- `_run_test_job` of main.py: read the previous source, switch to
`dataset`, mark the job running, replay up to `min(len(df), max_rows)`
rows, publish the terminal update and restore the source in `finally`.
Returns the final server state, the final job record and the trace of
published job-record states. -/
def _run_test_job {α : Type} [Inhabited α]
    (oracle : α → Except String (String × ℚ)) (mon : Nat → Bool)
    (envs : Nat → EventEnv) (rows : List α) (max_rows : Nat)
    (st0 : ServerState) (job0 : JobRec) :
    ServerState × JobRec × List JobRec :=
  let prev_source := _get_source st0
  let st1 := okOr st0 (_set_source "dataset" st0)
  let job1 := { job0 with
                status := "running"
                message := some "Testing started..." }
  let total := min rows.length max_rows
  finishJob prev_source
    (runLoop oracle mon envs rows total total 0 0 0 0 st1 job1 [job1])

/-- A sequence of ingestion calls (live or replay) applied through
`_push_prediction_to_dashboard`, oldest first. -/
def applyCalls (st : ServerState) (calls : List (EventEnv × String × ℚ)) :
    ServerState :=
  calls.foldl (fun s c => _push_prediction_to_dashboard c.1 c.2.1 c.2.2 s) st

/-! Concrete fixtures used by witnesses and counterexamples. -/

/-- A fixed event environment. -/
def env0 : EventEnv :=
  { time := "00:00:00", srcOctet := 2, dstOctet := 3, attackPick := 0 }

/-- A fresh server state with monitoring stopped. -/
def st_stopped : ServerState :=
  { running := false
    started_at := none
    stopped_at := none
    source := "generator"
    total := 0
    benign := 0
    attack := 0
    last_prediction := none
    recent := [] }

/-- A fresh server state with monitoring running. -/
def st_live : ServerState :=
  { st_stopped with running := true, started_at := some 0 }

/-- A running state whose active source is the dataset/replay mode. -/
def st_dataset : ServerState := { st_live with source := "dataset" }

/-- A benign event fixture. -/
def evB (n : Nat) : PredEvent :=
  mkItem { time := "t", srcOctet := n, dstOctet := 0, attackPick := 0 }
    "BENIGN" 0

/-- An attack event fixture. -/
def evA (n : Nat) : PredEvent :=
  mkItem { time := "t", srcOctet := n, dstOctet := 0, attackPick := 0 }
    "ATTACK" 1

/-- A running state holding ten events, three of them non-benign,
newest-first. -/
def st_buf : ServerState :=
  { st_live with
    recent := [evA 1, evB 1, evB 2, evA 2, evB 3, evB 4, evB 5, evA 3,
      evB 6, evB 7] }

/-- st_buf with monitoring switched off but the buffer intact. -/
def st_off : ServerState := { st_buf with running := false }

/-- The n-th of a family of pairwise-distinct ingestion calls (the source
octet varies, so the built events differ). -/
def mkCallN (n : Nat) : EventEnv × String × ℚ :=
  ({ time := "t", srcOctet := n, dstOctet := 0, attackPick := 0 }, "ATTACK", 1)

/-- 200 further calls after `mkCallN 0`. -/
def calls200 : List (EventEnv × String × ℚ) := (List.range' 1 200).map mkCallN

/-- 201 pairwise-distinct calls. -/
def calls201 : List (EventEnv × String × ℚ) := mkCallN 0 :: calls200

/-! Helper lemmas. -/

/-- `round4` is `round(q * 10000) / 10000`, the embedding of Python
`round(x, 4)` (up to the tie-breaking direction at exact half-way
points, which no claim exercises). -/
theorem round4_eq (q : ℚ) :
    round4 q = ((round (q * 10000) : ℤ) : ℚ) / 10000 := by
  have hden : (0 : ℚ) < (q.den : ℚ) := by exact_mod_cast q.pos
  rw [round4, Rat.divInt_eq_div, round_eq]
  congr 2
  have hmul : q * (q.den : ℚ) = (q.num : ℚ) := by
    have h2 := div_mul_cancel₀ (q.num : ℚ) hden.ne.symm
    rwa [Rat.num_div_den q] at h2
  have harg : q * 10000 + 1 / 2 =
      (((2 * (q.num * 10000) + (q.den : ℤ) : ℤ)) : ℚ) /
        (((2 * q.den : ℕ)) : ℚ) := by
    rw [show ((2 * q.den : ℕ) : ℚ) = 2 * (q.den : ℚ) by push_cast; ring]
    rw [eq_div_iff (by positivity)]
    push_cast
    nlinarith [hmul]
  rw [harg, Rat.floor_intCast_div_natCast]
  push_cast
  rfl

/-- One dashboard push preserves `total = benign + attack`. -/
theorem push_preserves_inv (env : EventEnv) (label : String) (prob : ℚ)
    (st : ServerState) (h : st.total = st.benign + st.attack) :
    (_push_prediction_to_dashboard env label prob st).total =
      (_push_prediction_to_dashboard env label prob st).benign +
        (_push_prediction_to_dashboard env label prob st).attack := by
  unfold _push_prediction_to_dashboard
  dsimp only
  split_ifs <;> omega

/-- Any sequence of dashboard pushes preserves `total = benign + attack`. -/
theorem applyCalls_preserves_inv (calls : List (EventEnv × String × ℚ)) :
    ∀ st : ServerState, st.total = st.benign + st.attack →
      (applyCalls st calls).total =
        (applyCalls st calls).benign + (applyCalls st calls).attack := by
  induction calls with
  | nil => intro st h; exact h
  | cons c cs ih =>
    intro st h
    have step := push_preserves_inv c.1 c.2.1 c.2.2 st h
    simpa [applyCalls, List.foldl_cons] using ih _ step

/-- Truncating after an already-truncated right part is the same as
truncating the whole concatenation. -/
theorem take_append_take {γ : Type} (n : Nat) (a b : List γ) :
    (a ++ b.take n).take n = (a ++ b).take n := by
  rw [List.take_append_eq_append_take, List.take_append_eq_append_take,
    List.take_take]
  congr 1
  exact congrArg (List.take · b) (Nat.min_eq_left (Nat.sub_le n a.length))

/-- The deque after a sequence of pushes: the pushed items in reverse
(newest first) in front of the old contents, truncated to capacity. -/
theorem applyCalls_recent (calls : List (EventEnv × String × ℚ)) :
    ∀ st : ServerState, st.recent.length ≤ 200 →
      (applyCalls st calls).recent =
        ((calls.map (fun c => mkItem c.1 c.2.1 c.2.2)).reverse ++
          st.recent).take 200 := by
  induction calls with
  | nil => intro st h; simp [applyCalls, List.take_of_length_le h]
  | cons c cs ih =>
    intro st h
    have hstep : (_push_prediction_to_dashboard c.1 c.2.1 c.2.2 st).recent =
        (mkItem c.1 c.2.1 c.2.2 :: st.recent).take 200 := rfl
    have hlen :
        (_push_prediction_to_dashboard c.1 c.2.1 c.2.2 st).recent.length ≤
          200 := by
      rw [hstep]; simp [List.length_take]
    have hfold : applyCalls st (c :: cs) =
        applyCalls (_push_prediction_to_dashboard c.1 c.2.1 c.2.2 st) cs := rfl
    rw [hfold, ih _ hlen, hstep, take_append_take]
    congr 1
    simp [List.reverse_cons, List.append_assoc]

/-- C1: every ingestion call (live `/predict` or a replay-worker row) runs
through `_push_prediction_to_dashboard`; after each update
`total = benign + attack` holds, and each call increments `total` by one
and exactly one of `benign`/`attack` by one, chosen by whether the label
equals "BENIGN". -/
theorem stats_record_invariant (calls : List (EventEnv × String × ℚ))
    (st0 : ServerState) (h : st0.total = st0.benign + st0.attack) :
    (∀ n : Nat,
      (applyCalls st0 (calls.take n)).total =
        (applyCalls st0 (calls.take n)).benign +
          (applyCalls st0 (calls.take n)).attack) ∧
    (∀ (env : EventEnv) (label : String) (prob : ℚ) (st : ServerState),
      (_push_prediction_to_dashboard env label prob st).total =
        st.total + 1 ∧
      (label = "BENIGN" →
        (_push_prediction_to_dashboard env label prob st).benign =
          st.benign + 1 ∧
        (_push_prediction_to_dashboard env label prob st).attack =
          st.attack) ∧
      (¬ label = "BENIGN" →
        (_push_prediction_to_dashboard env label prob st).attack =
          st.attack + 1 ∧
        (_push_prediction_to_dashboard env label prob st).benign =
          st.benign)) := by
  refine ⟨fun n => applyCalls_preserves_inv (calls.take n) st0 h,
    fun env label prob st => ⟨rfl, fun hl => ?_, fun hl => ?_⟩⟩
  · simp [_push_prediction_to_dashboard, hl]
  · simp [_push_prediction_to_dashboard, hl]

/-- Witness for C1 at a concrete two-call sequence. -/
theorem stats_record_invariant_witness :
    (applyCalls st_live ([(env0, "BENIGN", (0 : ℚ)),
        (env0, "ATTACK", (1 : ℚ))].take 2)).total =
      (applyCalls st_live ([(env0, "BENIGN", (0 : ℚ)),
        (env0, "ATTACK", (1 : ℚ))].take 2)).benign +
        (applyCalls st_live ([(env0, "BENIGN", (0 : ℚ)),
          (env0, "ATTACK", (1 : ℚ))].take 2)).attack :=
  (stats_record_invariant [(env0, "BENIGN", (0 : ℚ)), (env0, "ATTACK", (1 : ℚ))]
    st_live rfl).1 2

/-- C5 counterexample: `stop_monitoring` does not clear `started_at`.
Starting from a state whose `started_at` is `some 3`, stopping leaves it
`some 3`, contradicting the claim that stop clears `started_at` to
null. -/
theorem stop_monitoring_keeps_started_at_cex :
    (stop_monitoring 7 { st_live with started_at := some 3 }).started_at =
      some 3 ∧
    ¬ (stop_monitoring 7 { st_live with started_at := some 3 }).started_at =
      none := by
  constructor
  · rfl
  · simp [stop_monitoring]

/-- C5 (amended): `start` sets the flag, stamps `started_at` and clears
`stopped_at`; `stop` clears the flag and stamps `stopped_at` but leaves
`started_at` unchanged; neither operation touches any other field. -/
theorem monitoring_gate_frame (now : Nat) (st : ServerState) :
    (start_monitoring now st).running = true ∧
    (start_monitoring now st).started_at = some now ∧
    (start_monitoring now st).stopped_at = none ∧
    (start_monitoring now st).source = st.source ∧
    (start_monitoring now st).total = st.total ∧
    (start_monitoring now st).benign = st.benign ∧
    (start_monitoring now st).attack = st.attack ∧
    (start_monitoring now st).last_prediction = st.last_prediction ∧
    (start_monitoring now st).recent = st.recent ∧
    (stop_monitoring now st).running = false ∧
    (stop_monitoring now st).stopped_at = some now ∧
    (stop_monitoring now st).started_at = st.started_at ∧
    (stop_monitoring now st).source = st.source ∧
    (stop_monitoring now st).total = st.total ∧
    (stop_monitoring now st).benign = st.benign ∧
    (stop_monitoring now st).attack = st.attack ∧
    (stop_monitoring now st).last_prediction = st.last_prediction ∧
    (stop_monitoring now st).recent = st.recent :=
  ⟨rfl, rfl, rfl, rfl, rfl, rfl, rfl, rfl, rfl, rfl, rfl, rfl, rfl, rfl,
    rfl, rfl, rfl, rfl⟩

/-- C6: `/source/set` with a value that does not normalise to one of the
two legal modes fails with HTTP 400 and leaves the state (hence the
active mode) unchanged; with a legal value it succeeds, returns the new
mode, stores it, and a subsequent `_get_source` reads it back. -/
theorem source_set_spec (s : String) (st : ServerState) :
    (¬ (normSource s = "generator" ∨ normSource s = "dataset") →
      source_set s st =
        (Except.error
          ⟨400, "source must be \x27generator\x27 or \x27dataset\x27"⟩, st)) ∧
    ((normSource s = "generator" ∨ normSource s = "dataset") →
      source_set s st =
        (Except.ok (normSource s), { st with source := normSource s }) ∧
      _get_source (source_set s st).2 = normSource s) := by
  constructor
  · intro h
    simp [source_set, _set_source, h]
  · intro h
    have hset : _set_source s st = Except.ok { st with source := normSource s } := by
      simp [_set_source, h]
    simp [source_set, hset, _get_source]

/-- Witness for C6: "bogus" is rejected with 400 leaving the mode as it
was; "dataset" is accepted, stored, and read back. -/
theorem source_set_spec_witness :
    source_set "bogus" st_live =
      (Except.error
        ⟨400, "source must be \x27generator\x27 or \x27dataset\x27"⟩, st_live) ∧
    _get_source (source_set "dataset" st_live).2 = normSource "dataset" :=
  ⟨(source_set_spec "bogus" st_live).1 (by decide),
    ((source_set_spec "dataset" st_live).2 (by decide)).2⟩

/-- C7: `/predict` with monitoring stopped fails 409 with no state change;
with monitoring running but the dataset source active it fails 423 with
no state change. -/
theorem predict_guards (env : EventEnv) (orc : Except String (String × ℚ))
    (st : ServerState) :
    (st.running = false →
      predict env orc st =
        (Except.error
          ⟨409, "Monitoring is stopped. Start monitoring first."⟩, st)) ∧
    (st.running = true → st.source = "dataset" →
      predict env orc st =
        (Except.error ⟨423, "Traffic source is \x27" ++ st.source ++
          "\x27. This endpoint requires source=\x27generator\x27."⟩, st)) := by
  constructor
  · intro h
    simp [predict, h]
  · intro hrun hsrc
    simp [predict, hrun, hsrc]

/-- Witness for C7 at concrete stopped and dataset-mode states. -/
theorem predict_guards_witness :
    predict env0 (Except.ok ("BENIGN", (0 : ℚ))) st_stopped =
      (Except.error
        ⟨409, "Monitoring is stopped. Start monitoring first."⟩, st_stopped) ∧
    predict env0 (Except.ok ("BENIGN", (0 : ℚ))) st_dataset =
      (Except.error ⟨423, "Traffic source is \x27" ++ st_dataset.source ++
        "\x27. This endpoint requires source=\x27generator\x27."⟩, st_dataset) :=
  ⟨(predict_guards env0 (Except.ok ("BENIGN", (0 : ℚ))) st_stopped).1 rfl,
    (predict_guards env0 (Except.ok ("BENIGN", (0 : ℚ))) st_dataset).2 rfl rfl⟩

/-- C9: `/recent/alerts` filters the whole buffer before truncating: when
at most `limit` stored events are non-benign, the result is exactly the
non-benign events (newest-first, as stored), not padded with benign
ones. -/
theorem recent_alerts_filter_spec (limit : Nat) (st : ServerState)
    (hrun : st.running = true)
    (hcount : (st.recent.filter (fun x => x.label != "BENIGN")).length ≤ limit) :
    recent_alerts limit st = st.recent.filter (fun x => x.label != "BENIGN") ∧
    ∀ e ∈ recent_alerts limit st, ¬ e.label = "BENIGN" := by
  have h1 : recent_alerts limit st =
      st.recent.filter (fun x => x.label != "BENIGN") := by
    simp [recent_alerts, hrun, List.take_of_length_le hcount]
  refine ⟨h1, fun e he => ?_⟩
  rw [h1] at he
  simpa using List.of_mem_filter he

/-- Witness for C9: on a ten-event buffer with three non-benign events and
limit 5, the result is exactly those three, newest-first. -/
theorem recent_alerts_filter_spec_witness :
    recent_alerts 5 st_buf = [evA 1, evA 2, evA 3] :=
  ((recent_alerts_filter_spec 5 st_buf rfl (by decide)).1).trans (by decide)

/-- C10: while monitoring is off, `/recent` and `/recent/alerts` return
empty item lists whatever the buffer holds; re-enabling monitoring does
not touch the buffer, and both queries see the stored events again. -/
theorem recent_gated_by_monitoring (limit now : Nat) (st : ServerState)
    (h : st.running = false) :
    recent limit st = [] ∧
    recent_alerts limit st = [] ∧
    (start_monitoring now st).recent = st.recent ∧
    recent limit (start_monitoring now st) = st.recent.take limit ∧
    recent_alerts limit (start_monitoring now st) =
      (st.recent.filter (fun x => x.label != "BENIGN")).take limit := by
  refine ⟨?_, ?_, rfl, ?_, ?_⟩ <;>
    simp [recent, recent_alerts, start_monitoring, h]

/-- C8: across any sequence of pushes from a legal state the deque holds
at most 200 events; its contents are the pushed items newest-first in
front of the old ones, truncated to 200 (so the head is the most recent
push); and pushing a 201st distinct event into an initially empty buffer
leaves the first-pushed event absent. -/
theorem ring_buffer_spec (calls : List (EventEnv × String × ℚ))
    (st0 : ServerState) (h : st0.recent.length ≤ 200) :
    (applyCalls st0 calls).recent.length ≤ 200 ∧
    (applyCalls st0 calls).recent =
      ((calls.map (fun c => mkItem c.1 c.2.1 c.2.2)).reverse ++
        st0.recent).take 200 ∧
    (calls ≠ [] → (applyCalls st0 calls).recent.head? =
      (calls.map (fun c => mkItem c.1 c.2.1 c.2.2)).getLast?) ∧
    (st0.recent = [] → calls.length = 201 →
      ∀ c0 cs, calls = c0 :: cs →
        mkItem c0.1 c0.2.1 c0.2.2 ∉
          cs.map (fun c => mkItem c.1 c.2.1 c.2.2) →
        mkItem c0.1 c0.2.1 c0.2.2 ∉ (applyCalls st0 calls).recent) := by
  have hchar := applyCalls_recent calls st0 h
  refine ⟨?_, hchar, ?_, ?_⟩
  · rw [hchar]
    simp [List.length_take]
  · intro hne
    rw [hchar]
    cases hrev : (calls.map (fun c => mkItem c.1 c.2.1 c.2.2)).reverse with
    | nil =>
      exfalso
      have hm : calls.map (fun c => mkItem c.1 c.2.1 c.2.2) = [] := by
        simpa using congrArg List.reverse hrev
      simp at hm
      exact hne hm
    | cons x xs =>
      have hlast : (calls.map (fun c => mkItem c.1 c.2.1 c.2.2)).getLast? =
          some x := by
        rw [← List.head?_reverse, hrev]
        rfl
      rw [hlast]
      rfl
  · intro h0 h201 c0 cs hcc hnotin
    subst hcc
    have hcs : (cs.map (fun c => mkItem c.1 c.2.1 c.2.2)).length = 200 := by
      simp at h201 ⊢
      omega
    have hrecent : (applyCalls st0 (c0 :: cs)).recent =
        (cs.map (fun c => mkItem c.1 c.2.1 c.2.2)).reverse := by
      rw [hchar, h0, List.append_nil, List.map_cons, List.reverse_cons,
        List.take_append_eq_append_take]
      rw [List.take_of_length_le (by simp [hcs]), List.length_reverse, hcs]
      simp
    rw [hrecent, List.mem_reverse]
    exact hnotin

set_option maxRecDepth 4000 in
/-- Witness for C8: after pushing 201 pairwise-distinct events into an
empty buffer, the first one is gone. -/
theorem ring_buffer_spec_witness :
    mkItem (mkCallN 0).1 (mkCallN 0).2.1 (mkCallN 0).2.2 ∉
      (applyCalls st_live calls201).recent :=
  (ring_buffer_spec calls201 st_live (by decide)).2.2.2 rfl (by decide)
    (mkCallN 0) calls200 rfl (by decide)

/-- Witness for C10 at a stopped state holding ten events. -/
theorem recent_gated_by_monitoring_witness :
    recent 20 st_off = [] ∧
    recent_alerts 20 st_off = [] ∧
    (start_monitoring 5 st_off).recent = st_off.recent ∧
    recent 20 (start_monitoring 5 st_off) = st_off.recent.take 20 ∧
    recent_alerts 20 (start_monitoring 5 st_off) =
      (st_off.recent.filter (fun x => x.label != "BENIGN")).take 20 :=
  recent_gated_by_monitoring 20 5 st_off rfl

/-- The `finally` restore: the state keeps everything except the source,
which becomes the previous mode when that normalises to a legal value
and "generator" (the fallback) otherwise. -/
theorem restoreSource_eq (prev : String) (st : ServerState) :
    restoreSource prev st =
      { st with source :=
          if normSource prev = "generator" ∨ normSource prev = "dataset"
          then normSource prev else "generator" } := by
  by_cases h : normSource prev = "generator" ∨ normSource prev = "dataset"
  · simp [restoreSource, _set_source, h]
  · have hg : normSource "generator" = "generator" := by decide
    simp [restoreSource, _set_source, h, hg]

/-- Whatever the loop outcome, the returned server state is the
loop-final state passed through the restore step. -/
theorem finishJob_fst (prev : String)
    (r : LoopExit × ServerState × JobRec × List JobRec) :
    (finishJob prev r).1 = restoreSource prev r.2.1 := by
  rcases r with ⟨ex, st2, job2, tr2⟩
  cases ex <;> rfl

/-- `_run_test_job` unfolded: the mode read before the switch is
`st0.source`, the switch to "dataset" always succeeds, the job is marked
running, and the loop result is finished and restored. -/
theorem run_test_job_unfold {α : Type} [Inhabited α]
    (oracle : α → Except String (String × ℚ)) (mon : Nat → Bool)
    (envs : Nat → EventEnv) (rows : List α) (max_rows : Nat)
    (st0 : ServerState) (job0 : JobRec) :
    _run_test_job oracle mon envs rows max_rows st0 job0 =
      finishJob st0.source
        (runLoop oracle mon envs rows (min rows.length max_rows)
          (min rows.length max_rows) 0 0 0 0
          { st0 with source := "dataset" }
          { job0 with
            status := "running"
            message := some "Testing started..." }
          [{ job0 with
             status := "running"
             message := some "Testing started..." }]) := rfl

/-- C2: on every exit path of the replay worker (completion, the
monitoring-stopped cancellation, or an oracle exception — all covered by
quantifying over `mon` and `oracle`), the `finally` step restores the
source the worker read before starting; and when that stored mode does
not normalise to a legal value, so that the restoring `_set_source`
raises, the worker forces the live/generator mode instead. -/
theorem run_test_job_restores_source {α : Type} [Inhabited α]
    (oracle : α → Except String (String × ℚ)) (mon : Nat → Bool)
    (envs : Nat → EventEnv) (rows : List α) (max_rows : Nat)
    (st0 : ServerState) (job0 : JobRec) :
    ((st0.source = "generator" ∨ st0.source = "dataset") →
      (_run_test_job oracle mon envs rows max_rows st0 job0).1.source =
        st0.source) ∧
    (¬ (normSource st0.source = "generator" ∨
        normSource st0.source = "dataset") →
      (_run_test_job oracle mon envs rows max_rows st0 job0).1.source =
        "generator") := by
  rw [run_test_job_unfold, finishJob_fst, restoreSource_eq]
  constructor
  · intro h
    dsimp only
    rcases h with h | h <;> rw [h] <;> decide
  · intro h
    dsimp only
    rw [if_neg h]

/-- Witness for C2: a worker that fails on row 0 still restores the
"generator" mode it started from, and one started from a corrupted
source value falls back to "generator". -/
theorem run_test_job_restores_source_witness :
    (_run_test_job (fun _ : Unit => Except.error "model failure")
      (fun _ => true) (fun _ => env0) [()] 500 st_live
      (_job_create 1 "t.csv")).1.source = st_live.source ∧
    (_run_test_job (fun _ : Unit => Except.ok ("BENIGN", (0 : ℚ)))
      (fun _ => true) (fun _ => env0) [()] 500
      { st_live with source := "bogus" }
      (_job_create 1 "t.csv")).1.source = "generator" :=
  ⟨(run_test_job_restores_source (fun _ : Unit => Except.error "model failure")
      (fun _ => true) (fun _ => env0) [()] 500 st_live
      (_job_create 1 "t.csv")).1 (Or.inl rfl),
    (run_test_job_restores_source (fun _ : Unit => Except.ok ("BENIGN", (0 : ℚ)))
      (fun _ => true) (fun _ => env0) [()] 500
      { st_live with source := "bogus" }
      (_job_create 1 "t.csv")).2 (by decide)⟩

/-- Characterisation of the replay loop when monitoring stays on and the
oracle answers every row: it runs to the end of its fuel, the local
benign/attack counters sum to the processed count, the stats total grows
by one per row, the deque receives the rows' events in original order
(newest first), published records are never dropped from the trace, and
a progress record is published at every multiple of 25. -/
theorem runLoop_ok {α : Type} [Inhabited α]
    (oracle : α → Except String (String × ℚ)) (mon : Nat → Bool)
    (envs : Nat → EventEnv) (rows : List α) (total : Nat)
    (lbl : Nat → String) (prb : Nat → ℚ)
    (hmon : ∀ i, mon i = true)
    (horc : ∀ i, oracle (rows.getD i default) = Except.ok (lbl i, prb i)) :
    ∀ (k i p b a : Nat) (st : ServerState) (job : JobRec) (tr : List JobRec),
      b + a = p → job.status = "running" → st.recent.length ≤ 200 →
      (∃ b2 a2, b2 + a2 = p + k ∧
        (runLoop oracle mon envs rows total k i p b a st job tr).1 =
          LoopExit.completed (p + k) b2 a2) ∧
      (runLoop oracle mon envs rows total k i p b a st job tr).2.1.total =
        st.total + k ∧
      (runLoop oracle mon envs rows total k i p b a st job tr).2.1.recent =
        (((List.range' i k).map
            (fun j => mkItem (envs j) (lbl j) (prb j))).reverse ++
          st.recent).take 200 ∧
      (∀ e, e ∈ tr →
        e ∈ (runLoop oracle mon envs rows total k i p b a st job tr).2.2.2) ∧
      (∀ m, p < m → m ≤ p + k → m % 25 = 0 →
        ∃ e,
          e ∈ (runLoop oracle mon envs rows total k i p b a st job tr).2.2.2 ∧
          e.status = "running" ∧ e.processed = m ∧ e.benign + e.attack = m ∧
          e.message =
            some ("Processed " ++ toString m ++ "/" ++ toString total)) := by
  intro k
  induction k with
  | zero =>
    intro i p b a st job tr hba hstat hlen
    refine ⟨⟨b, a, by omega, rfl⟩, rfl, ?_, fun e he => he, ?_⟩
    · exact (List.take_of_length_le hlen).symm
    · intro m hm1 hm2 _
      omega
  | succ k ih =>
    intro i p b a st job tr hba hstat hlen
    have hcond : ¬ (mon i = false) := by simp [hmon i]
    rw [show runLoop oracle mon envs rows total (k + 1) i p b a st job tr =
        (if mon i = false then
          ((LoopExit.monStopped, st,
            { job with
              status := "failed"
              message := some "Monitoring stopped during dataset test." },
            tr ++ [{ job with
              status := "failed"
              message :=
                some "Monitoring stopped during dataset test." }]) :
            LoopExit × ServerState × JobRec × List JobRec)
        else
          match oracle (rows.getD i default) with
          | Except.error e => (LoopExit.oracleFail e, st, job, tr)
          | Except.ok (label, prob) =>
            if (p + 1) % 25 = 0 then
              runLoop oracle mon envs rows total k (i + 1) (p + 1)
                (if label = "BENIGN" then b + 1 else b)
                (if label = "BENIGN" then a else a + 1)
                (_push_prediction_to_dashboard (envs i) label prob st)
                { job with
                  processed := p + 1
                  benign := if label = "BENIGN" then b + 1 else b
                  attack := if label = "BENIGN" then a else a + 1
                  message := some ("Processed " ++ toString (p + 1) ++ "/" ++
                    toString total) }
                (tr ++ [{ job with
                  processed := p + 1
                  benign := if label = "BENIGN" then b + 1 else b
                  attack := if label = "BENIGN" then a else a + 1
                  message := some ("Processed " ++ toString (p + 1) ++ "/" ++
                    toString total) }])
            else
              runLoop oracle mon envs rows total k (i + 1) (p + 1)
                (if label = "BENIGN" then b + 1 else b)
                (if label = "BENIGN" then a else a + 1)
                (_push_prediction_to_dashboard (envs i) label prob st)
                job tr) from rfl]
    rw [if_neg hcond, horc i]
    dsimp only
    set b2 := if lbl i = "BENIGN" then b + 1 else b with hb2
    set a2 := if lbl i = "BENIGN" then a else a + 1 with ha2
    set st2 := _push_prediction_to_dashboard (envs i) (lbl i) (prb i) st
      with hst2
    have hba2 : b2 + a2 = p + 1 := by
      rw [hb2, ha2]; split_ifs <;> omega
    have hlen2 : st2.recent.length ≤ 200 := by
      rw [hst2]
      simp [_push_prediction_to_dashboard, List.length_take]
    have htot2 : st2.total = st.total + 1 := rfl
    have hrec2 : st2.recent =
        (mkItem (envs i) (lbl i) (prb i) :: st.recent).take 200 := rfl
    have hrange : List.range' i (k + 1) = i :: List.range' (i + 1) k :=
      List.range'_succ i k 1
    by_cases h25 : (p + 1) % 25 = 0
    · rw [if_pos h25]
      set j2 : JobRec :=
        { job with
          processed := p + 1
          benign := b2
          attack := a2
          message := some ("Processed " ++ toString (p + 1) ++ "/" ++
            toString total) } with hj2
      have hstat2 : j2.status = "running" := hstat
      obtain ⟨⟨b3, a3, hsum, hexit⟩, htot, hrec, hpres, hmul⟩ :=
        ih (i + 1) (p + 1) b2 a2 st2 j2 (tr ++ [j2]) hba2 hstat2 hlen2
      refine ⟨⟨b3, a3, by omega, ?_⟩, ?_, ?_, ?_, ?_⟩
      · rw [hexit]
        congr 1
        omega
      · rw [htot, htot2]
        omega
      · rw [hrec, hrec2, take_append_take, hrange]
        congr 1
        simp [List.reverse_cons, List.append_assoc]
      · intro e he
        exact hpres e (List.mem_append_left _ he)
      · intro m hm1 hm2 h25m
        by_cases hm : m = p + 1
        · subst hm
          refine ⟨j2, hpres j2 (List.mem_append_right _ (by simp)), ?_, rfl,
            hba2, rfl⟩
          exact hstat2
        · exact hmul m (by omega) (by omega) h25m
    · rw [if_neg h25]
      obtain ⟨⟨b3, a3, hsum, hexit⟩, htot, hrec, hpres, hmul⟩ :=
        ih (i + 1) (p + 1) b2 a2 st2 job tr hba2 hstat hlen2
      refine ⟨⟨b3, a3, by omega, ?_⟩, ?_, ?_, hpres, ?_⟩
      · rw [hexit]
        congr 1
        omega
      · rw [htot, htot2]
        omega
      · rw [hrec, hrec2, take_append_take, hrange]
        congr 1
        simp [List.reverse_cons, List.append_assoc]
      · intro m hm1 hm2 h25m
        by_cases hm : m = p + 1
        · subst hm
          exact absurd h25m h25
        · exact hmul m (by omega) (by omega) h25m

/-- C3: with monitoring on for the whole run and an oracle that answers
every row, a replay job over `rows` with limit `max_rows` processes
exactly `min rows.length max_rows` rows in original order (the deque
receives exactly their events, newest first), ends "done" with
`processed = min rows.length max_rows` and `benign + attack = processed`,
grows the shared stats total by exactly `processed`, and a progress
record (processed count, running counters, human message) appears in the
published trace before the terminal update for every multiple of 25 up
to `processed`. -/
theorem run_test_job_success {α : Type} [Inhabited α]
    (oracle : α → Except String (String × ℚ)) (mon : Nat → Bool)
    (envs : Nat → EventEnv) (rows : List α) (max_rows : Nat)
    (st0 : ServerState) (job0 : JobRec)
    (lbl : Nat → String) (prb : Nat → ℚ)
    (hmon : ∀ i, mon i = true)
    (horc : ∀ i, oracle (rows.getD i default) = Except.ok (lbl i, prb i))
    (hlen : st0.recent.length ≤ 200) :
    (_run_test_job oracle mon envs rows max_rows st0 job0).2.1.status =
      "done" ∧
    (_run_test_job oracle mon envs rows max_rows st0 job0).2.1.processed =
      min rows.length max_rows ∧
    (_run_test_job oracle mon envs rows max_rows st0 job0).2.1.benign +
      (_run_test_job oracle mon envs rows max_rows st0 job0).2.1.attack =
      min rows.length max_rows ∧
    (_run_test_job oracle mon envs rows max_rows st0 job0).1.total =
      st0.total + min rows.length max_rows ∧
    (_run_test_job oracle mon envs rows max_rows st0 job0).1.recent =
      (((List.range (min rows.length max_rows)).map
          (fun j => mkItem (envs j) (lbl j) (prb j))).reverse ++
        st0.recent).take 200 ∧
    (∀ m, 0 < m → m % 25 = 0 → m ≤ min rows.length max_rows →
      ∃ e,
        e ∈ (_run_test_job oracle mon envs rows max_rows
              st0 job0).2.2.dropLast ∧
        e.status = "running" ∧ e.processed = m ∧ e.benign + e.attack = m ∧
        e.message = some ("Processed " ++ toString m ++ "/" ++
          toString (min rows.length max_rows))) := by
  rw [run_test_job_unfold]
  set total := min rows.length max_rows with htotal
  set st1 : ServerState := { st0 with source := "dataset" } with hst1
  set job1 : JobRec :=
    { job0 with status := "running", message := some "Testing started..." }
    with hjob1
  obtain ⟨⟨b2, a2, hsum, hexit⟩, htot, hrec, _hpres, hmul⟩ :=
    runLoop_ok oracle mon envs rows total lbl prb hmon horc total 0 0 0 0
      st1 job1 [job1] rfl rfl hlen
  rcases hr : runLoop oracle mon envs rows total total 0 0 0 0 st1 job1 [job1]
    with ⟨ex, st2, job2, tr2⟩
  rw [hr] at hexit htot hrec hmul
  rw [Nat.zero_add] at hexit hsum
  dsimp only at hexit htot hrec hmul
  subst hexit
  dsimp only [finishJob]
  have hdrop :
      ∀ jd : JobRec, (tr2 ++ [jd]).dropLast = tr2 := fun jd => by simp
  refine ⟨rfl, rfl, hsum, ?_, ?_, ?_⟩
  · rw [restoreSource_eq]
    exact htot
  · rw [restoreSource_eq]
    dsimp only
    rw [List.range_eq_range']
    exact hrec
  · intro m hm1 h25m hm2
    rw [hdrop]
    exact hmul m hm1 (by omega) h25m

/-- Witness for C3: 100 benign rows, limit 50, monitoring on throughout:
the job ends done with processed 50 and the stats total grows by 50. -/
theorem run_test_job_success_witness :
    (_run_test_job (fun _ : Unit => Except.ok ("BENIGN", (0 : ℚ)))
      (fun _ => true) (fun _ => env0) (List.replicate 100 ()) 50 st_live
      (_job_create 50 "t.csv")).2.1.status = "done" ∧
    (_run_test_job (fun _ : Unit => Except.ok ("BENIGN", (0 : ℚ)))
      (fun _ => true) (fun _ => env0) (List.replicate 100 ()) 50 st_live
      (_job_create 50 "t.csv")).2.1.processed = 50 ∧
    (_run_test_job (fun _ : Unit => Except.ok ("BENIGN", (0 : ℚ)))
      (fun _ => true) (fun _ => env0) (List.replicate 100 ()) 50 st_live
      (_job_create 50 "t.csv")).1.total = st_live.total + 50 := by
  have h := run_test_job_success (fun _ : Unit => Except.ok ("BENIGN", (0 : ℚ)))
    (fun _ => true) (fun _ => env0) (List.replicate 100 ()) 50 st_live
    (_job_create 50 "t.csv") (fun _ => "BENIGN") (fun _ => 0)
    (fun _ => rfl) (fun _ => rfl) (by decide)
  refine ⟨h.1, ?_, ?_⟩
  · rw [h.2.1]
    decide
  · rw [h.2.2.2.1]
    decide

/-- Characterisation of the replay loop when monitoring is observed true
for the first `s` iterations and false at iteration `s` (within the
fuel): the loop exits through the cancellation branch after exactly `s`
pushes, the job record becomes "failed" with the stop message, and its
processed counter still holds the last published stride value, i.e. the
greatest multiple of 25 below or at the processed count. -/
theorem runLoop_stop {α : Type} [Inhabited α]
    (oracle : α → Except String (String × ℚ)) (mon : Nat → Bool)
    (envs : Nat → EventEnv) (rows : List α) (total : Nat)
    (lbl : Nat → String) (prb : Nat → ℚ)
    (horc : ∀ i, oracle (rows.getD i default) = Except.ok (lbl i, prb i)) :
    ∀ (s k i p b a : Nat) (st : ServerState) (job : JobRec)
      (tr : List JobRec),
      s < k → (∀ j, j < s → mon (i + j) = true) → mon (i + s) = false →
      job.processed = 25 * (p / 25) →
      (runLoop oracle mon envs rows total k i p b a st job tr).1 =
        LoopExit.monStopped ∧
      (runLoop oracle mon envs rows total k i p b a st job tr).2.1.total =
        st.total + s ∧
      (runLoop oracle mon envs rows total k i p b a st job tr).2.2.1.status =
        "failed" ∧
      (runLoop oracle mon envs rows total k i p b a st job tr).2.2.1.message =
        some "Monitoring stopped during dataset test." ∧
      (runLoop oracle mon envs rows total k i p b a st
          job tr).2.2.1.processed = 25 * ((p + s) / 25) := by
  intro s
  induction s with
  | zero =>
    intro k i p b a st job tr hk hmon hstop hinv
    cases k with
    | zero => omega
    | succ k2 =>
      have hmi : mon i = false := by simpa using hstop
      rw [show runLoop oracle mon envs rows total (k2 + 1) i p b a st job tr =
          (if mon i = false then
            ((LoopExit.monStopped, st,
              { job with
                status := "failed"
                message := some "Monitoring stopped during dataset test." },
              tr ++ [{ job with
                status := "failed"
                message :=
                  some "Monitoring stopped during dataset test." }]) :
              LoopExit × ServerState × JobRec × List JobRec)
          else
            match oracle (rows.getD i default) with
            | Except.error e => (LoopExit.oracleFail e, st, job, tr)
            | Except.ok (label, prob) =>
              if (p + 1) % 25 = 0 then
                runLoop oracle mon envs rows total k2 (i + 1) (p + 1)
                  (if label = "BENIGN" then b + 1 else b)
                  (if label = "BENIGN" then a else a + 1)
                  (_push_prediction_to_dashboard (envs i) label prob st)
                  { job with
                    processed := p + 1
                    benign := if label = "BENIGN" then b + 1 else b
                    attack := if label = "BENIGN" then a else a + 1
                    message := some ("Processed " ++ toString (p + 1) ++
                      "/" ++ toString total) }
                  (tr ++ [{ job with
                    processed := p + 1
                    benign := if label = "BENIGN" then b + 1 else b
                    attack := if label = "BENIGN" then a else a + 1
                    message := some ("Processed " ++ toString (p + 1) ++
                      "/" ++ toString total) }])
              else
                runLoop oracle mon envs rows total k2 (i + 1) (p + 1)
                  (if label = "BENIGN" then b + 1 else b)
                  (if label = "BENIGN" then a else a + 1)
                  (_push_prediction_to_dashboard (envs i) label prob st)
                  job tr) from rfl]
      rw [if_pos hmi]
      refine ⟨rfl, rfl, rfl, rfl, ?_⟩
      dsimp only
      omega
  | succ s ih =>
    intro k i p b a st job tr hk hmon hstop hinv
    cases k with
    | zero => omega
    | succ k2 =>
      have hmi : mon i = true := hmon 0 (by omega)
      have hcond : ¬ (mon i = false) := by simp [hmi]
      rw [show runLoop oracle mon envs rows total (k2 + 1) i p b a st job tr =
          (if mon i = false then
            ((LoopExit.monStopped, st,
              { job with
                status := "failed"
                message := some "Monitoring stopped during dataset test." },
              tr ++ [{ job with
                status := "failed"
                message :=
                  some "Monitoring stopped during dataset test." }]) :
              LoopExit × ServerState × JobRec × List JobRec)
          else
            match oracle (rows.getD i default) with
            | Except.error e => (LoopExit.oracleFail e, st, job, tr)
            | Except.ok (label, prob) =>
              if (p + 1) % 25 = 0 then
                runLoop oracle mon envs rows total k2 (i + 1) (p + 1)
                  (if label = "BENIGN" then b + 1 else b)
                  (if label = "BENIGN" then a else a + 1)
                  (_push_prediction_to_dashboard (envs i) label prob st)
                  { job with
                    processed := p + 1
                    benign := if label = "BENIGN" then b + 1 else b
                    attack := if label = "BENIGN" then a else a + 1
                    message := some ("Processed " ++ toString (p + 1) ++
                      "/" ++ toString total) }
                  (tr ++ [{ job with
                    processed := p + 1
                    benign := if label = "BENIGN" then b + 1 else b
                    attack := if label = "BENIGN" then a else a + 1
                    message := some ("Processed " ++ toString (p + 1) ++
                      "/" ++ toString total) }])
              else
                runLoop oracle mon envs rows total k2 (i + 1) (p + 1)
                  (if label = "BENIGN" then b + 1 else b)
                  (if label = "BENIGN" then a else a + 1)
                  (_push_prediction_to_dashboard (envs i) label prob st)
                  job tr) from rfl]
      rw [if_neg hcond, horc i]
      dsimp only
      set b2 := if lbl i = "BENIGN" then b + 1 else b with hb2
      set a2 := if lbl i = "BENIGN" then a else a + 1 with ha2
      set st2 := _push_prediction_to_dashboard (envs i) (lbl i) (prb i) st
        with hst2
      have htot2 : st2.total = st.total + 1 := rfl
      have hmon2 : ∀ j, j < s → mon (i + 1 + j) = true := by
        intro j hj
        have := hmon (j + 1) (by omega)
        rwa [show i + (j + 1) = i + 1 + j from by omega] at this
      have hstop2 : mon (i + 1 + s) = false := by
        rwa [show i + 1 + s = i + (s + 1) from by omega]
      have hk2 : s < k2 := by omega
      by_cases h25 : (p + 1) % 25 = 0
      · rw [if_pos h25]
        set j2 : JobRec :=
          { job with
            processed := p + 1
            benign := b2
            attack := a2
            message := some ("Processed " ++ toString (p + 1) ++ "/" ++
              toString total) } with hj2
        have hinv2 : j2.processed = 25 * ((p + 1) / 25) := by
          rw [hj2]
          dsimp only
          omega
        obtain ⟨hexit, htot, hst, hmsg, hproc⟩ :=
          ih k2 (i + 1) (p + 1) b2 a2 st2 j2 (tr ++ [j2]) hk2 hmon2 hstop2
            hinv2
        refine ⟨hexit, ?_, hst, hmsg, ?_⟩
        · rw [htot, htot2]
          omega
        · rw [hproc]
          congr 1
          omega
      · rw [if_neg h25]
        have hinv2 : job.processed = 25 * ((p + 1) / 25) := by
          rw [hinv]
          congr 1
          omega
        obtain ⟨hexit, htot, hst, hmsg, hproc⟩ :=
          ih k2 (i + 1) (p + 1) b2 a2 st2 job tr hk2 hmon2 hstop2 hinv2
        refine ⟨hexit, ?_, hst, hmsg, ?_⟩
        · rw [htot, htot2]
          omega
        · rw [hproc]
          congr 1
          omega

/-- C4 (amended): when monitoring is observed true for the first `s`
loop iterations and false at iteration `s`, the job ends "failed" with
the message "Monitoring stopped during dataset test.", the loop aborts
immediately — exactly `s` rows are classified and recorded, none after
the stop is observed — and the job record's processed counter holds the
value of the last 25-row progress publish, `25 * (s / 25)`, which
understates the exact count whenever `s` is not a multiple of 25. -/
theorem run_test_job_stop_behavior {α : Type} [Inhabited α]
    (oracle : α → Except String (String × ℚ)) (mon : Nat → Bool)
    (envs : Nat → EventEnv) (rows : List α) (max_rows : Nat)
    (st0 : ServerState) (job0 : JobRec)
    (lbl : Nat → String) (prb : Nat → ℚ) (s : Nat)
    (horc : ∀ i, oracle (rows.getD i default) = Except.ok (lbl i, prb i))
    (hs : s < min rows.length max_rows)
    (hmon : ∀ j, j < s → mon j = true) (hstop : mon s = false)
    (hjob : job0.processed = 0) :
    (_run_test_job oracle mon envs rows max_rows st0 job0).2.1.status =
      "failed" ∧
    (_run_test_job oracle mon envs rows max_rows st0 job0).2.1.message =
      some "Monitoring stopped during dataset test." ∧
    (_run_test_job oracle mon envs rows max_rows st0 job0).1.total =
      st0.total + s ∧
    (_run_test_job oracle mon envs rows max_rows st0 job0).2.1.processed =
      25 * (s / 25) := by
  rw [run_test_job_unfold]
  set total := min rows.length max_rows with htotal
  set st1 : ServerState := { st0 with source := "dataset" } with hst1
  set job1 : JobRec :=
    { job0 with status := "running", message := some "Testing started..." }
    with hjob1
  have hmon0 : ∀ j, j < s → mon (0 + j) = true := by
    intro j hj
    rw [Nat.zero_add]
    exact hmon j hj
  have hstop0 : mon (0 + s) = false := by
    rw [Nat.zero_add]
    exact hstop
  have hinv0 : job1.processed = 25 * (0 / 25) := by
    rw [hjob1]
    dsimp only
    omega
  obtain ⟨hexit, htot, hst, hmsg, hproc⟩ :=
    runLoop_stop oracle mon envs rows total lbl prb horc s total 0 0 0 0
      st1 job1 [job1] hs hmon0 hstop0 hinv0
  rcases hr : runLoop oracle mon envs rows total total 0 0 0 0 st1 job1 [job1]
    with ⟨ex, st2, job2, tr2⟩
  rw [hr] at hexit htot hst hmsg hproc
  dsimp only at hexit htot hst hmsg hproc
  subst hexit
  dsimp only [finishJob]
  refine ⟨hst, hmsg, ?_, ?_⟩
  · rw [restoreSource_eq]
    exact htot
  · rw [hproc]
    omega

set_option maxRecDepth 4000 in
/-- C4 counterexample: monitoring stops after 10 of 50 rows.  Ten rows
were ingested — the stats total rose from 0 to 10 — but the job
record's processed counter reads 0 (no 25-row stride was reached), so
the claim that the processed counter reflects exactly the rows handled
before the stop fails at this input. -/
theorem run_test_job_stop_cex :
    (_run_test_job (fun _ : Unit => Except.ok ("BENIGN", (0 : ℚ)))
      (fun i => decide (i < 10)) (fun _ => env0) (List.replicate 50 ()) 500
      st_live (_job_create 50 "t.csv")).2.1.status = "failed" ∧
    (_run_test_job (fun _ : Unit => Except.ok ("BENIGN", (0 : ℚ)))
      (fun i => decide (i < 10)) (fun _ => env0) (List.replicate 50 ()) 500
      st_live (_job_create 50 "t.csv")).1.total = 10 ∧
    (_run_test_job (fun _ : Unit => Except.ok ("BENIGN", (0 : ℚ)))
      (fun i => decide (i < 10)) (fun _ => env0) (List.replicate 50 ()) 500
      st_live (_job_create 50 "t.csv")).2.1.processed = 0 ∧
    ¬ (_run_test_job (fun _ : Unit => Except.ok ("BENIGN", (0 : ℚ)))
      (fun i => decide (i < 10)) (fun _ => env0) (List.replicate 50 ()) 500
      st_live (_job_create 50 "t.csv")).2.1.processed = 10 := by
  refine ⟨?_, ?_, ?_, ?_⟩ <;> decide

/-- Witness for the amended C4 at the concrete stop-after-10 run. -/
theorem run_test_job_stop_behavior_witness :
    (_run_test_job (fun _ : Unit => Except.ok ("BENIGN", (0 : ℚ)))
      (fun i => decide (i < 10)) (fun _ => env0) (List.replicate 50 ()) 500
      st_live (_job_create 50 "t.csv")).2.1.status = "failed" ∧
    (_run_test_job (fun _ : Unit => Except.ok ("BENIGN", (0 : ℚ)))
      (fun i => decide (i < 10)) (fun _ => env0) (List.replicate 50 ()) 500
      st_live (_job_create 50 "t.csv")).1.total = st_live.total + 10 ∧
    (_run_test_job (fun _ : Unit => Except.ok ("BENIGN", (0 : ℚ)))
      (fun i => decide (i < 10)) (fun _ => env0) (List.replicate 50 ()) 500
      st_live (_job_create 50 "t.csv")).2.1.processed = 25 * (10 / 25) := by
  have h := run_test_job_stop_behavior
    (fun _ : Unit => Except.ok ("BENIGN", (0 : ℚ)))
    (fun i => decide (i < 10)) (fun _ => env0) (List.replicate 50 ()) 500
    st_live (_job_create 50 "t.csv") (fun _ => "BENIGN") (fun _ => 0) 10
    (fun _ => rfl) (by decide) (fun j hj => by simpa using hj) (by decide)
    rfl
  exact ⟨h.1, h.2.2.1, h.2.2.2⟩
